import Mathlib

/-!
Verification of the `run_crud_sql` MCP tool of `mcp-edge-function`
(file `supabase/functions/hello-world/index.ts`): the HTML escaper
`escapeHtml`, the result renderer `formatResultsAsTable`, the query
translator and the response composer of the tool handler, embedded
shallowly as Lean functions.
-/

/-- A JavaScript scalar value as it appears in result rows and filter maps. -/
inductive JsVal where
  | str : String → JsVal
  | num : Int → JsVal
  | bool : Bool → JsVal
  | null : JsVal
  | undefined : JsVal
  deriving DecidableEq, Repr

/-- The JavaScript conversion `String(value)` applied to a scalar value. -/
def JsVal.toJsString : JsVal → String
  | .str s => s
  | .num n => toString n
  | .bool b => if b then "true" else "false"
  | .null => "null"
  | .undefined => "undefined"

/-- A result row: a JavaScript object, i.e. an ordered association list
from column names to values. -/
abbrev Row := List (String × JsVal)

/-- The per-character replacement map of `escapeHtml` in index.ts
(ampersand, less-than, greater-than, double quote, apostrophe each map
to an HTML entity; every other character maps to itself). -/
def escapeChar (c : Char) : String :=
  if c = '&' then "&amp;"
  else if c = '<' then "&lt;"
  else if c = '>' then "&gt;"
  else if c = Char.ofNat 34 then "&quot;"
  else if c = Char.ofNat 39 then "&#039;"
  else String.singleton c

/-- JavaScript `Array.prototype.join` with the empty separator:
concatenation of a list of strings. -/
def strJoin : List String → String
  | [] => ""
  | s :: rest => s ++ strJoin rest

/-- Embedding of `escapeHtml` (index.ts line 381): the global regex
replacement applies `escapeChar` to every character of the input. -/
def escapeHtml (text : String) : String :=
  strJoin (text.data.map escapeChar)

/-- Does a character list begin with the tail of one of the five emitted
entities (the part after the ampersand)? -/
def startsEntity : List Char → Bool
  | 'a' :: 'm' :: 'p' :: ';' :: _ => true
  | 'l' :: 't' :: ';' :: _ => true
  | 'g' :: 't' :: ';' :: _ => true
  | 'q' :: 'u' :: 'o' :: 't' :: ';' :: _ => true
  | '#' :: '0' :: '3' :: '9' :: ';' :: _ => true
  | _ => false

/-- Every ampersand in the character list is immediately followed by an
entity tail, i.e. no ampersand occurs raw. -/
def noRawAmp : List Char → Bool
  | [] => true
  | c :: rest => (!(c == '&') || startsEntity rest) && noRawAmp rest

theorem string_data_append (s t : String) : (s ++ t).data = s.data ++ t.data := by
  cases s
  cases t
  rfl

theorem strJoin_data (l : List String) :
    (strJoin l).data = (l.map String.data).flatten := by
  induction l with
  | nil => rfl
  | cons s rest ih => simp [strJoin, string_data_append, ih]

theorem str_ext (s t : String) (h : s.data = t.data) : s = t :=
  congrArg String.mk h

theorem strJoin_append (l₁ l₂ : List String) :
    strJoin (l₁ ++ l₂) = strJoin l₁ ++ strJoin l₂ := by
  apply str_ext
  simp [strJoin_data, string_data_append]

theorem escapeHtml_append (s t : String) :
    escapeHtml (s ++ t) = escapeHtml s ++ escapeHtml t := by
  unfold escapeHtml
  rw [string_data_append, List.map_append, strJoin_append]

theorem noRawAmp_cons (c : Char) (rest : List Char) :
    noRawAmp (c :: rest) = ((!(c == '&') || startsEntity rest) && noRawAmp rest) := rfl

theorem noRawAmp_no_amp_append (l rest : List Char)
    (h : ∀ c ∈ l, (c == '&') = false) :
    noRawAmp (l ++ rest) = noRawAmp rest := by
  induction l with
  | nil => rfl
  | cons c t ih =>
      simp only [List.cons_append, noRawAmp_cons, h c (by simp), Bool.not_false,
        Bool.true_or, Bool.true_and]
      exact ih (fun d hd => h d (by simp [hd]))

theorem noRawAmp_append_escapeChar (c : Char) (rest : List Char) :
    noRawAmp ((escapeChar c).data ++ rest) = noRawAmp rest := by
  by_cases h1 : c = '&'
  · subst h1
    have hc : (escapeChar '&').data = ['&', 'a', 'm', 'p', ';'] := by decide
    rw [hc]
    simp only [List.cons_append, List.nil_append, noRawAmp_cons,
      show startsEntity ('a' :: 'm' :: 'p' :: ';' :: rest) = true from rfl,
      show (('&' : Char) == '&') = true from rfl, Bool.not_true, Bool.false_or,
      Bool.true_and]
    exact noRawAmp_no_amp_append ['a', 'm', 'p', ';'] rest (by decide)
  · by_cases h2 : c = '<'
    · subst h2
      have hc : (escapeChar '<').data = ['&', 'l', 't', ';'] := by decide
      rw [hc]
      simp only [List.cons_append, List.nil_append, noRawAmp_cons,
        show startsEntity ('l' :: 't' :: ';' :: rest) = true from rfl,
        show (('&' : Char) == '&') = true from rfl, Bool.not_true, Bool.false_or,
        Bool.true_and]
      exact noRawAmp_no_amp_append ['l', 't', ';'] rest (by decide)
    · by_cases h3 : c = '>'
      · subst h3
        have hc : (escapeChar '>').data = ['&', 'g', 't', ';'] := by decide
        rw [hc]
        simp only [List.cons_append, List.nil_append, noRawAmp_cons,
          show startsEntity ('g' :: 't' :: ';' :: rest) = true from rfl,
          show (('&' : Char) == '&') = true from rfl, Bool.not_true, Bool.false_or,
          Bool.true_and]
        exact noRawAmp_no_amp_append ['g', 't', ';'] rest (by decide)
      · by_cases h4 : c = Char.ofNat 34
        · subst h4
          have hc : (escapeChar (Char.ofNat 34)).data
              = ['&', 'q', 'u', 'o', 't', ';'] := by decide
          rw [hc]
          simp only [List.cons_append, List.nil_append, noRawAmp_cons,
            show startsEntity ('q' :: 'u' :: 'o' :: 't' :: ';' :: rest) = true from rfl,
            show (('&' : Char) == '&') = true from rfl, Bool.not_true, Bool.false_or,
            Bool.true_and]
          exact noRawAmp_no_amp_append ['q', 'u', 'o', 't', ';'] rest (by decide)
        · by_cases h5 : c = Char.ofNat 39
          · subst h5
            have hc : (escapeChar (Char.ofNat 39)).data
                = ['&', '#', '0', '3', '9', ';'] := by decide
            rw [hc]
            simp only [List.cons_append, List.nil_append, noRawAmp_cons,
              show startsEntity ('#' :: '0' :: '3' :: '9' :: ';' :: rest) = true from rfl,
              show (('&' : Char) == '&') = true from rfl, Bool.not_true, Bool.false_or,
              Bool.true_and]
            exact noRawAmp_no_amp_append ['#', '0', '3', '9', ';'] rest (by decide)
          · have hc : (escapeChar c).data = [c] := by
              simp [escapeChar, h1, h2, h3, h4, h5, String.singleton]
            rw [hc]
            have hb : (c == '&') = false := by
              simpa using h1
            simp only [List.cons_append, List.nil_append, noRawAmp_cons, hb,
              Bool.not_false, Bool.true_or, Bool.true_and]

theorem noRawAmp_escapeHtml_list (l : List Char) :
    noRawAmp (strJoin (l.map escapeChar)).data = true := by
  induction l with
  | nil => rfl
  | cons c rest ih =>
      simp only [List.map_cons, strJoin, string_data_append]
      rw [noRawAmp_append_escapeChar]
      exact ih

theorem escapeChar_no_special (c d : Char) (hd : d ∈ (escapeChar c).data) :
    d ≠ '<' ∧ d ≠ '>' ∧ d ≠ Char.ofNat 34 ∧ d ≠ Char.ofNat 39 := by
  by_cases h1 : c = '&'
  · subst h1
    have hc : (escapeChar '&').data = ['&', 'a', 'm', 'p', ';'] := by decide
    rw [hc] at hd
    simp only [List.mem_cons, List.not_mem_nil, or_false] at hd
    rcases hd with h | h | h | h | h <;> subst h <;> decide
  · by_cases h2 : c = '<'
    · subst h2
      have hc : (escapeChar '<').data = ['&', 'l', 't', ';'] := by decide
      rw [hc] at hd
      simp only [List.mem_cons, List.not_mem_nil, or_false] at hd
      rcases hd with h | h | h | h <;> subst h <;> decide
    · by_cases h3 : c = '>'
      · subst h3
        have hc : (escapeChar '>').data = ['&', 'g', 't', ';'] := by decide
        rw [hc] at hd
        simp only [List.mem_cons, List.not_mem_nil, or_false] at hd
        rcases hd with h | h | h | h <;> subst h <;> decide
      · by_cases h4 : c = Char.ofNat 34
        · subst h4
          have hc : (escapeChar (Char.ofNat 34)).data
              = ['&', 'q', 'u', 'o', 't', ';'] := by decide
          rw [hc] at hd
          simp only [List.mem_cons, List.not_mem_nil, or_false] at hd
          rcases hd with h | h | h | h | h | h <;> subst h <;> decide
        · by_cases h5 : c = Char.ofNat 39
          · subst h5
            have hc : (escapeChar (Char.ofNat 39)).data
                = ['&', '#', '0', '3', '9', ';'] := by decide
            rw [hc] at hd
            simp only [List.mem_cons, List.not_mem_nil, or_false] at hd
            rcases hd with h | h | h | h | h | h <;> subst h <;> decide
          · have hc : (escapeChar c).data = [c] := by
              simp [escapeChar, h1, h2, h3, h4, h5, String.singleton]
            rw [hc] at hd
            simp at hd
            subst hd
            exact ⟨h2, h3, h4, h5⟩

theorem escapeHtml_no_special (s : String) (d : Char)
    (hd : d ∈ (escapeHtml s).data) :
    d ≠ '<' ∧ d ≠ '>' ∧ d ≠ Char.ofNat 34 ∧ d ≠ Char.ofNat 39 := by
  unfold escapeHtml at hd
  rw [strJoin_data] at hd
  rw [List.mem_flatten] at hd
  obtain ⟨chunk, hchunk, hdm⟩ := hd
  simp only [List.map_map, List.mem_map] at hchunk
  obtain ⟨c, _, hc⟩ := hchunk
  subst hc
  exact escapeChar_no_special c d hdm

/-- JavaScript property access `row[col]` on a result row: the first value
bound to the key, or `undefined` when the key is absent. -/
def lookupVal (row : Row) (col : String) : JsVal :=
  match row.lookup col with
  | some v => v
  | none => JsVal.undefined

/-- The text of one cell: `String(row[col] ?? 'NULL')` — null and undefined
become the literal text NULL, everything else its string conversion. -/
def cellText (row : Row) (col : String) : String :=
  match lookupVal row col with
  | JsVal.null => "NULL"
  | JsVal.undefined => "NULL"
  | v => v.toJsString

/-- The document returned by `formatResultsAsTable` when `data` is null or
empty (index.ts lines 236 to 274), verbatim. -/
def noResultsHtml : String := "
    <!DOCTYPE html>
    <html>
    <head>
      <meta charset=\"UTF-8\">
      <meta name=\"viewport\" content=\"width=device-width, initial-scale=1.0\">
      <link rel=\"preconnect\" href=\"https://fonts.googleapis.com\">
      <link rel=\"preconnect\" href=\"https://fonts.gstatic.com\" crossorigin>
      <link href=\"https://fonts.googleapis.com/css2?family=Inter:wght@400;500;600&display=swap\" rel=\"stylesheet\">
      <style>
        * \x7b
          margin: 0;
          padding: 0;
          box-sizing: border-box;
        \x7d
        body \x7b
          font-family: \x27Inter\x27, -apple-system, BlinkMacSystemFont, \x27Segoe UI\x27, Roboto, sans-serif;
          background: #1c1c1c;
          color: #ededed;
          padding: 20px;
        \x7d
        .no-results \x7b
          color: #b4b4b4;
          font-style: italic;
          padding: 16px;
          background: #181818;
          border: 1px solid #2e2e2e;
          border-radius: 6px;
          text-align: center;
        \x7d
      </style>
    </head>
    <body>
      <div class=\"sql-results\">
        <p class=\"no-results\">0 result</p>
      </div>
    </body>
    </html>"

/-- The fixed part of the non-empty result document preceding the row-count
label (index.ts lines 279 to 358), verbatim. -/
def tableDocHead : String := "
    <!DOCTYPE html>
    <html>
    <head>
      <meta charset=\"UTF-8\">
      <meta name=\"viewport\" content=\"width=device-width, initial-scale=1.0\">
      <link rel=\"preconnect\" href=\"https://fonts.googleapis.com\">
      <link rel=\"preconnect\" href=\"https://fonts.gstatic.com\" crossorigin>
      <link href=\"https://fonts.googleapis.com/css2?family=Inter:wght@400;500;600&display=swap\" rel=\"stylesheet\">
      <style>
        * \x7b
          margin: 0;
          padding: 0;
          box-sizing: border-box;
        \x7d
        body \x7b
          font-family: \x27Inter\x27, -apple-system, BlinkMacSystemFont, \x27Segoe UI\x27, Roboto, sans-serif;
          background: #1c1c1c;
          color: #ededed;
          padding: 20px;
        \x7d
        .sql-results \x7b
          width: 100%;
          max-width: 100%;
        \x7d
        .sql-table \x7b
          width: 100%;
          border-collapse: separate;
          border-spacing: 0;
          margin-top: 12px;
          background: #181818;
          border: 1px solid #2e2e2e;
          border-radius: 8px;
          overflow: hidden;
          box-shadow: 0 1px 3px rgba(0, 0, 0, 0.3);
        \x7d
        .sql-table th \x7b
          background: #1a1a1a;
          color: #ededed;
          padding: 12px 16px;
          text-align: left;
          font-weight: 500;
          font-size: 13px;
          text-transform: uppercase;
          letter-spacing: 0.5px;
          border-bottom: 1px solid #2e2e2e;
        \x7d
        .sql-table td \x7b
          padding: 12px 16px;
          border-bottom: 1px solid #2e2e2e;
          font-size: 14px;
          color: #b4b4b4;
          background: #181818;
        \x7d
        .sql-table tbody tr:hover td \x7b
          background: #1f1f1f;
        \x7d
        .sql-table tbody tr:last-child td \x7b
          border-bottom: none;
        \x7d
        .results-info \x7b
          color: #ededed;
          font-size: 13px;
          margin-bottom: 12px;
          padding: 8px 12px;
          background: #181818;
          border: 1px solid #2e2e2e;
          border-radius: 6px;
          display: inline-block;
        \x7d
        .results-info strong \x7b
          color: #3ecf8e;
          font-weight: 600;
        \x7d
      </style>
    </head>
    <body>
      <div class=\"sql-results\">
        <div class=\"results-info\">
          "

/-- The row-count label of the non-empty result document:
`<strong>N</strong> row[s] returned` with the plural s exactly when the
count differs from 1 (index.ts line 358). -/
def resultsLabel (n : Nat) : String :=
  "<strong>" ++ toString n ++ "</strong> row" ++ (if n ≠ 1 then "s" else "") ++ " returned"

/-- The fixed text between the row-count label and the header cells
(index.ts lines 359 to 363). -/
def tableMid1 : String :=
  "\n        </div>\n        <table class=\"sql-table\">\n          <thead>\n            <tr>\n              "

/-- The fixed text between the header cells and the body rows
(index.ts lines 363 to 367). -/
def tableMid2 : String :=
  "\n            </tr>\n          </thead>\n          <tbody>\n            "

/-- The fixed tail of the non-empty result document (index.ts lines 371
to 377). -/
def tableDocSuffix : String :=
  "\n          </tbody>\n        </table>\n      </div>\n    </body>\n    </html>\n  "

/-- Header cells: one th element per column name, concatenated. -/
def headerCells (columns : List String) : String :=
  strJoin (columns.map fun col => "<th>" ++ escapeHtml col ++ "</th>")

/-- One data cell: `<td>` around the escaped cell text (index.ts line 369). -/
def tdCell (row : Row) (col : String) : String :=
  "<td>" ++ escapeHtml (cellText row col) ++ "</td>"

/-- The cells of one rendered row, in the given column order. -/
def rowCells (columns : List String) (row : Row) : String :=
  strJoin (columns.map (tdCell row))

/-- One rendered `<tr>` block including the template literal whitespace
(index.ts lines 367 to 371). -/
def renderedRow (columns : List String) (row : Row) : String :=
  "\n              <tr>\n                " ++ rowCells columns row
    ++ "\n              </tr>\n            "

/-- The body: the rendered rows, concatenated. -/
def bodyRows (columns : List String) (data : List Row) : String :=
  strJoin (data.map (renderedRow columns))

/-- Embedding of `formatResultsAsTable` (index.ts lines 235 to 378):
null or empty data yields the no-results document; otherwise the columns
are the keys of the first row and every row is rendered in that order. -/
def formatResultsAsTable (data : Option (List Row)) : String :=
  match data with
  | none => noResultsHtml
  | some [] => noResultsHtml
  | some (r0 :: rest) =>
      tableDocHead ++ resultsLabel (r0 :: rest).length ++ tableMid1
        ++ headerCells (r0.map Prod.fst) ++ tableMid2
        ++ bodyRows (r0.map Prod.fst) (r0 :: rest) ++ tableDocSuffix

/-- The process environment as the handler reads it: the values of
SUPABASE_URL and SUPABASE_ANON_KEY, each possibly unset. -/
structure Env where
  supabaseUrl : Option String
  supabaseKey : Option String

/-- JavaScript falsiness of an optional string: `!x` is true when the
variable is unset or bound to the empty string. -/
def jsFalsy : Option String → Bool
  | none => true
  | some s => s == ""

/-- The parsed tool input (the zod QueryInputSchema of index.ts):
table name, optional column selection, optional equality filter map,
optional row limit. -/
structure QueryInput where
  table : String
  columns : Option String
  filter : Option (List (String × JsVal))
  limit : Option Int

/-- JavaScript `args.columns || "*"`: the column selection string with
the default applied to an absent or empty value. -/
def jsStringOrStar : Option String → String
  | some s => if s = "" then "*" else s
  | none => "*"

/-- The read request the handler composes against the Supabase client:
`from(table).select(columns)` plus chained `eq` filters and an optional
`limit` cap. -/
structure QueryReq where
  table : String
  select : String
  eqFilters : List (String × JsVal)
  limitCap : Option Int
  deriving DecidableEq, Repr

/-- The query translation of the handler (index.ts lines 458 to 470):
select defaults to star, each filter entry becomes an equality
constraint in entry order, and a limit is attached only when truthy. -/
def buildQuery (args : QueryInput) : QueryReq :=
  { table := args.table
    select := jsStringOrStar args.columns
    eqFilters :=
      match args.filter with
      | some fs => fs
      | none => []
    limitCap :=
      match args.limit with
      | some n => if n = 0 then none else some n
      | none => none }

/-- The outcome of awaiting the gateway call: either a raised exception
(a rejected promise or any other fault inside the try block), or the
`{ data, error }` pair the Supabase client resolves with. -/
inductive GatewayReply where
  | thrown : String → GatewayReply
  | result : Option String → Option (List Row) → GatewayReply

/-- The `structuredContent` payload of a success response
(index.ts lines 509 to 515). -/
structure StructuredContent where
  results : Option (List Row)
  rowCount : Nat
  tableName : String
  columns : String
  filter : Option (List (String × JsVal))
  deriving DecidableEq, Repr

/-- One entry of the `content` array of a tool response: a text item or
the embedded UI resource (its URI and HTML). -/
inductive ContentItem where
  | text : String → ContentItem
  | resource : String → String → ContentItem
  deriving DecidableEq, Repr

/-- The tool response object: content array, optional structured
content, and the error flag (absent means false). -/
structure ToolResponse where
  content : List ContentItem
  structuredContent : Option StructuredContent := none
  isError : Bool := false
  deriving DecidableEq, Repr

/-- The credentials error message of index.ts line 448. -/
def credsErrorText : String :=
  "Error: Supabase credentials not found. Please set SUPABASE_URL and SUPABASE_ANON_KEY environment variables."

/-- JavaScript `results?.length || 0`. -/
def jsLen : Option (List Row) → Nat
  | some rows => rows.length
  | none => 0

/-- JavaScript `results?.length !== 1`: true also when results is null,
since undefined differs from 1. -/
def jsLenNe1 : Option (List Row) → Bool
  | some rows => rows.length != 1
  | none => true

/-- The text summary of a success response (index.ts line 504). -/
def successSummary (table : String) (data : Option (List Row)) : String :=
  "Query returned " ++ toString (jsLen data) ++ " row"
    ++ (if jsLenNe1 data then "s" else "") ++ " from table \x27" ++ table ++ "\x27."

/-- Embedding of the `run_crud_sql` tool handler (index.ts lines 438 to
526). The gateway is passed as an oracle mapping the composed request to
its outcome; the try/catch around the body surfaces any thrown fault as
an error response. -/
def run_crud_sql (env : Env) (gateway : QueryReq → GatewayReply)
    (args : QueryInput) : ToolResponse :=
  if jsFalsy env.supabaseUrl || jsFalsy env.supabaseKey then
    { content := [ContentItem.text credsErrorText], isError := true }
  else
    match gateway (buildQuery args) with
    | GatewayReply.thrown msg =>
        { content := [ContentItem.text ("Error executing operation: " ++ msg)]
          isError := true }
    | GatewayReply.result (some errMsg) _ =>
        { content := [ContentItem.text ("Database Error: " ++ errMsg)]
          isError := true }
    | GatewayReply.result none data =>
        { content := [ContentItem.text (successSummary args.table data),
            ContentItem.resource ("ui://supabase/" ++ args.table ++ "/select")
              (formatResultsAsTable data)]
          structuredContent := some
            { results := data
              rowCount := jsLen data
              tableName := args.table
              columns := jsStringOrStar args.columns
              filter := args.filter }
          isError := false }

/-- Boolean substring test: does `pat` occur contiguously in the list? -/
def containsSub (pat : List Char) : List Char → Bool
  | [] => pat.isEmpty
  | c :: rest => pat.isPrefixOf (c :: rest) || containsSub pat rest

theorem containsSub_iff (pat l : List Char) :
    containsSub pat l = true ↔ pat <:+: l := by
  induction l with
  | nil =>
      simp [containsSub, List.isEmpty_iff, List.infix_nil]
  | cons c rest ih =>
      rw [ List.infix_cons_iff]
      simp [containsSub, ih, List.isPrefixOf_iff_prefix]

set_option maxRecDepth 8000 in
theorem noResultsHtml_has_block :
    ("<p class=\"no-results\">0 result</p>").data <:+: noResultsHtml.data := by
  rw [← containsSub_iff]
  decide

set_option maxRecDepth 8000 in
theorem noResultsHtml_no_table :
    ¬ ("<table").data <:+: noResultsHtml.data := by
  rw [← containsSub_iff]
  decide

/-- C3: `escapeHtml` replaces each occurrence of the five special
characters by its entity and passes every other character through
unchanged; the output holds none of less-than, greater-than, double
quote or apostrophe, and every ampersand in it starts an entity, so no
special character survives raw. -/
theorem escapeHtml_escapes_specials (s t : String) (c : Char)
    (hc : c ∉ ['&', '<', '>', Char.ofNat 34, Char.ofNat 39]) :
    escapeHtml "&" = "&amp;" ∧
    escapeHtml "<" = "&lt;" ∧
    escapeHtml ">" = "&gt;" ∧
    escapeHtml (String.singleton (Char.ofNat 34)) = "&quot;" ∧
    escapeHtml (String.singleton (Char.ofNat 39)) = "&#039;" ∧
    escapeHtml (String.singleton c) = String.singleton c ∧
    escapeHtml (s ++ t) = escapeHtml s ++ escapeHtml t ∧
    (∀ d ∈ (escapeHtml s).data,
      d ≠ '<' ∧ d ≠ '>' ∧ d ≠ Char.ofNat 34 ∧ d ≠ Char.ofNat 39) ∧
    noRawAmp (escapeHtml s).data = true := by
  simp only [List.mem_cons, List.not_mem_nil, or_false, not_or] at hc
  obtain ⟨h1, h2, h3, h4, h5⟩ := hc
  refine ⟨by decide, by decide, by decide, by decide, by decide, ?_,
    escapeHtml_append s t, fun d hd => escapeHtml_no_special s d hd,
    noRawAmp_escapeHtml_list s.data⟩
  show strJoin (((String.singleton c).data).map escapeChar) = String.singleton c
  have hd : (String.singleton c).data = [c] := rfl
  rw [hd]
  simp only [List.map_cons, List.map_nil, strJoin]
  rw [String.append_empty]
  simp [escapeChar, h1, h2, h3, h4, h5]

/-- Witness for the C3 theorem at concrete inputs. -/
theorem escapeHtml_escapes_specials_w :
    escapeHtml "&" = "&amp;" ∧
    escapeHtml (String.singleton 'x') = String.singleton 'x' ∧
    escapeHtml ("a&b" ++ "<") = escapeHtml "a&b" ++ escapeHtml "<" ∧
    noRawAmp (escapeHtml "a&b").data = true := by
  have h := escapeHtml_escapes_specials "a&b" "<" 'x' (by decide)
  exact ⟨h.1, h.2.2.2.2.2.1, h.2.2.2.2.2.2.1, h.2.2.2.2.2.2.2.2⟩

/-- C7: for a null or empty row sequence the renderer returns the
no-results document, which carries the no-results placeholder block and
contains no table element. -/
theorem formatResultsAsTable_empty (data : Option (List Row))
    (h : data = none ∨ data = some []) :
    formatResultsAsTable data = noResultsHtml ∧
    ("<p class=\"no-results\">0 result</p>").data
      <:+: (formatResultsAsTable data).data ∧
    ¬ ("<table").data <:+: (formatResultsAsTable data).data := by
  have heq : formatResultsAsTable data = noResultsHtml := by
    rcases h with h | h <;> subst h <;> rfl
  rw [heq]
  exact ⟨rfl, noResultsHtml_has_block, noResultsHtml_no_table⟩

/-- Witness for the C7 theorem at the null input. -/
theorem formatResultsAsTable_empty_w :
    formatResultsAsTable none = noResultsHtml ∧
    ("<p class=\"no-results\">0 result</p>").data
      <:+: (formatResultsAsTable none).data ∧
    ¬ ("<table").data <:+: (formatResultsAsTable none).data :=
  formatResultsAsTable_empty none (Or.inl rfl)

/-- C8: the column list of a non-empty result is the key order of the
first row, every row is rendered in that fixed order independently of
its own key set, and a missing, null or undefined value renders as the
literal text NULL. -/
theorem formatResultsAsTable_columns (r0 : Row) (rest : List Row)
    (r r' : Row) (c : String)
    (hagree : ∀ k ∈ r0.map Prod.fst, lookupVal r k = lookupVal r' k)
    (hmiss : r.lookup c = none ∨ lookupVal r c = JsVal.null ∨
      lookupVal r c = JsVal.undefined) :
    formatResultsAsTable (some (r0 :: rest)) =
      tableDocHead ++ resultsLabel (r0 :: rest).length ++ tableMid1
        ++ headerCells (r0.map Prod.fst) ++ tableMid2
        ++ bodyRows (r0.map Prod.fst) (r0 :: rest) ++ tableDocSuffix ∧
    rowCells (r0.map Prod.fst) r = rowCells (r0.map Prod.fst) r' ∧
    tdCell r c = "<td>NULL</td>" := by
  refine ⟨rfl, ?_, ?_⟩
  · unfold rowCells
    congr 1
    apply List.map_congr_left
    intro k hk
    unfold tdCell cellText
    rw [hagree k hk]
  · have hval : lookupVal r c = JsVal.null ∨ lookupVal r c = JsVal.undefined := by
      rcases hmiss with h | h | h
      · right
        unfold lookupVal
        rw [h]
      · left
        exact h
      · right
        exact h
    have hct : cellText r c = "NULL" := by
      unfold cellText
      rcases hval with h | h <;> rw [h]
    unfold tdCell
    rw [hct]
    decide

/-- Witness for the C8 theorem at concrete rows. -/
theorem formatResultsAsTable_columns_w :
    rowCells ([("id", JsVal.num 1), ("name", JsVal.str "Yoda")].map Prod.fst)
        [("id", JsVal.num 2), ("extra", JsVal.bool true)]
      = rowCells ([("id", JsVal.num 1), ("name", JsVal.str "Yoda")].map Prod.fst)
        [("id", JsVal.num 2)] ∧
    tdCell [("id", JsVal.num 2), ("extra", JsVal.bool true)] "name"
      = "<td>NULL</td>" := by
  have h := formatResultsAsTable_columns
    [("id", JsVal.num 1), ("name", JsVal.str "Yoda")]
    [[("id", JsVal.num 2), ("extra", JsVal.bool true)]]
    [("id", JsVal.num 2), ("extra", JsVal.bool true)]
    [("id", JsVal.num 2)] "name" (by decide) (by decide)
  exact ⟨h.2.1, h.2.2⟩

/-- C9: the rendered row-count label of a non-empty result occurs in the
document and states exactly the row count, with singular wording for one
row and plural wording for every other count. -/
theorem formatResultsAsTable_label (r0 : Row) (rest : List Row) :
    (resultsLabel (r0 :: rest).length).data
      <:+: (formatResultsAsTable (some (r0 :: rest))).data ∧
    resultsLabel 1 = "<strong>1</strong> row returned" ∧
    ((r0 :: rest).length ≠ 1 →
      resultsLabel (r0 :: rest).length
        = "<strong>" ++ toString (r0 :: rest).length ++ "</strong> rows returned") := by
  refine ⟨?_, by decide, ?_⟩
  · refine ⟨tableDocHead.data,
      (tableMid1 ++ headerCells (r0.map Prod.fst) ++ tableMid2
        ++ bodyRows (r0.map Prod.fst) (r0 :: rest) ++ tableDocSuffix).data, ?_⟩
    show _ = (formatResultsAsTable (some (r0 :: rest))).data
    rw [show formatResultsAsTable (some (r0 :: rest))
        = tableDocHead ++ resultsLabel (r0 :: rest).length ++ tableMid1
          ++ headerCells (r0.map Prod.fst) ++ tableMid2
          ++ bodyRows (r0.map Prod.fst) (r0 :: rest) ++ tableDocSuffix from rfl]
    simp [string_data_append, List.append_assoc]
  · intro h
    unfold resultsLabel
    rw [if_pos h]
    apply str_ext
    simp only [string_data_append, List.append_assoc]
    rw [show ("</strong> row".data ++ ("s".data ++ " returned".data))
        = "</strong> rows returned".data from by decide]

/-- Witness for the C9 theorem at one and two rows. -/
theorem formatResultsAsTable_label_w :
    resultsLabel 1 = "<strong>1</strong> row returned" ∧
    resultsLabel 2 = "<strong>2</strong> rows returned" ∧
    (resultsLabel 1).data
      <:+: (formatResultsAsTable (some [[("id", JsVal.num 1)]])).data := by
  have h1 := formatResultsAsTable_label [("id", JsVal.num 1)] []
  have h2 := formatResultsAsTable_label [("id", JsVal.num 1)] [[("id", JsVal.num 1)]]
  refine ⟨h1.2.1, ?_, h1.1⟩
  have hp : resultsLabel 2 = "<strong>" ++ toString (2 : Nat) ++ "</strong> rows returned" :=
    h2.2.2 (by decide)
  rw [hp]
  decide

/-- C1: no fault escapes the handler: when the awaited body raises, the
returned object is still a well-formed response whose error flag is set
and whose text carries the message of the fault (or the configuration
error text when the credentials check short-circuits before the call). -/
theorem run_crud_sql_no_escape (env : Env) (gateway : QueryReq → GatewayReply)
    (args : QueryInput) (msg : String)
    (h : gateway (buildQuery args) = GatewayReply.thrown msg) :
    (run_crud_sql env gateway args).isError = true ∧
    (run_crud_sql env gateway args).content ≠ [] ∧
    ∃ s, ContentItem.text s ∈ (run_crud_sql env gateway args).content ∧
      (s = "Error executing operation: " ++ msg ∨ s = credsErrorText) := by
  cases hb : jsFalsy env.supabaseUrl || jsFalsy env.supabaseKey with
  | true =>
      refine ⟨?_, ?_, credsErrorText, ?_, Or.inr rfl⟩ <;> simp [run_crud_sql, hb]
  | false =>
      refine ⟨?_, ?_, "Error executing operation: " ++ msg, ?_, Or.inl rfl⟩ <;>
        simp [run_crud_sql, hb, h]

/-- Witness for the C1 theorem with a gateway that throws. -/
theorem run_crud_sql_no_escape_w :
    (run_crud_sql { supabaseUrl := some "u", supabaseKey := some "k" }
      (fun _ => GatewayReply.thrown "boom")
      { table := "t", columns := none, filter := none, limit := none }).isError
      = true ∧
    (run_crud_sql { supabaseUrl := some "u", supabaseKey := some "k" }
      (fun _ => GatewayReply.thrown "boom")
      { table := "t", columns := none, filter := none, limit := none }).content
      ≠ [] ∧
    ∃ s, ContentItem.text s ∈ (run_crud_sql
        { supabaseUrl := some "u", supabaseKey := some "k" }
        (fun _ => GatewayReply.thrown "boom")
        { table := "t", columns := none, filter := none, limit := none }).content ∧
      (s = "Error executing operation: " ++ "boom" ∨ s = credsErrorText) :=
  run_crud_sql_no_escape _ _ _ "boom" rfl

/-- C2: in a success response the structured content rowCount equals the
length of the results array. -/
theorem run_crud_sql_rowCount (env : Env) (gateway : QueryReq → GatewayReply)
    (args : QueryInput) (sc : StructuredContent) (rows : List Row)
    (hsc : (run_crud_sql env gateway args).structuredContent = some sc)
    (hr : sc.results = some rows) :
    (run_crud_sql env gateway args).isError = false ∧
    sc.rowCount = rows.length := by
  cases hb : jsFalsy env.supabaseUrl || jsFalsy env.supabaseKey with
  | true => simp [run_crud_sql, hb] at hsc
  | false =>
      cases hg : gateway (buildQuery args) with
      | thrown m => simp [run_crud_sql, hb, hg] at hsc
      | result e d =>
          cases e with
          | some m => simp [run_crud_sql, hb, hg] at hsc
          | none =>
              have hsc2 : some ({
                  results := d
                  rowCount := jsLen d
                  tableName := args.table
                  columns := jsStringOrStar args.columns
                  filter := args.filter } : StructuredContent) = some sc := by
                rw [← hsc]
                simp [run_crud_sql, hb, hg]
              have hsc3 := Option.some.inj hsc2
              subst hsc3
              have hd : d = some rows := hr
              subst hd
              exact ⟨by simp [run_crud_sql, hb, hg], rfl⟩

/-- Witness for the C2 theorem with a one-row result. -/
theorem run_crud_sql_rowCount_w :
    (run_crud_sql { supabaseUrl := some "u", supabaseKey := some "k" }
      (fun _ => GatewayReply.result none (some [[("id", JsVal.num 1)]]))
      { table := "t", columns := none, filter := none, limit := none }).isError
      = false ∧
    ({ results := some [[("id", JsVal.num 1)]]
       rowCount := 1
       tableName := "t"
       columns := "*"
       filter := none } : StructuredContent).rowCount
      = [[("id", JsVal.num 1)]].length :=
  run_crud_sql_rowCount _ _ _ _ _ rfl rfl

/-- C4: when a required credential is absent the handler answers with
the configuration error response, and the response is independent of the
gateway, so no gateway call is attempted. -/
theorem run_crud_sql_missing_creds (env : Env)
    (gw gw' : QueryReq → GatewayReply) (args : QueryInput)
    (h : env.supabaseUrl = none ∨ env.supabaseKey = none) :
    (run_crud_sql env gw args).isError = true ∧
    ContentItem.text credsErrorText ∈ (run_crud_sql env gw args).content ∧
    run_crud_sql env gw args = run_crud_sql env gw' args := by
  have hb : (jsFalsy env.supabaseUrl || jsFalsy env.supabaseKey) = true := by
    rcases h with h | h <;> rw [h] <;> simp [jsFalsy]
  refine ⟨?_, ?_, ?_⟩ <;> simp [run_crud_sql, hb]

/-- Witness for the C4 theorem with an unset URL. -/
theorem run_crud_sql_missing_creds_w :
    (run_crud_sql { supabaseUrl := none, supabaseKey := some "k" }
      (fun _ => GatewayReply.thrown "x")
      { table := "t", columns := none, filter := none, limit := none }).isError
      = true ∧
    ContentItem.text credsErrorText ∈ (run_crud_sql
      { supabaseUrl := none, supabaseKey := some "k" }
      (fun _ => GatewayReply.thrown "x")
      { table := "t", columns := none, filter := none, limit := none }).content ∧
    run_crud_sql { supabaseUrl := none, supabaseKey := some "k" }
      (fun _ => GatewayReply.thrown "x")
      { table := "t", columns := none, filter := none, limit := none }
      = run_crud_sql { supabaseUrl := none, supabaseKey := some "k" }
        (fun _ => GatewayReply.result none none)
        { table := "t", columns := none, filter := none, limit := none } :=
  run_crud_sql_missing_creds _ _ _ _ (Or.inl rfl)

/-- C5: a gateway-reported error yields an error response whose text
holds the message of the gateway verbatim and which carries no
structured content. -/
theorem run_crud_sql_gateway_error (env : Env)
    (gateway : QueryReq → GatewayReply) (args : QueryInput)
    (errMsg : String) (d : Option (List Row))
    (hu : jsFalsy env.supabaseUrl = false) (hk : jsFalsy env.supabaseKey = false)
    (h : gateway (buildQuery args) = GatewayReply.result (some errMsg) d) :
    (run_crud_sql env gateway args).isError = true ∧
    (run_crud_sql env gateway args).structuredContent = none ∧
    ContentItem.text ("Database Error: " ++ errMsg)
      ∈ (run_crud_sql env gateway args).content ∧
    errMsg.data <:+: ("Database Error: " ++ errMsg).data := by
  refine ⟨?_, ?_, ?_, ?_⟩
  · simp [run_crud_sql, hu, hk, h]
  · simp [run_crud_sql, hu, hk, h]
  · simp [run_crud_sql, hu, hk, h]
  · refine ⟨"Database Error: ".data, [], ?_⟩
    simp [string_data_append]

/-- Witness for the C5 theorem with a permission-denied message. -/
theorem run_crud_sql_gateway_error_w :
    (run_crud_sql { supabaseUrl := some "u", supabaseKey := some "k" }
      (fun _ => GatewayReply.result (some "permission denied") none)
      { table := "t", columns := none, filter := none, limit := none }).isError
      = true ∧
    (run_crud_sql { supabaseUrl := some "u", supabaseKey := some "k" }
      (fun _ => GatewayReply.result (some "permission denied") none)
      { table := "t", columns := none, filter := none, limit := none
        }).structuredContent = none ∧
    ContentItem.text ("Database Error: " ++ "permission denied")
      ∈ (run_crud_sql { supabaseUrl := some "u", supabaseKey := some "k" }
        (fun _ => GatewayReply.result (some "permission denied") none)
        { table := "t", columns := none, filter := none, limit := none }).content ∧
    ("permission denied").data
      <:+: ("Database Error: " ++ "permission denied").data :=
  run_crud_sql_gateway_error _ _ _ _ none rfl rfl rfl

/-- C6: the translator attaches a row cap exactly when the limit field
is present and truthy: an absent limit and a zero limit issue no cap; a
positive limit N caps at N. -/
theorem buildQuery_limit (args : QueryInput) (n : Int) (hn : 0 < n) :
    (buildQuery { args with limit := none }).limitCap = none ∧
    (buildQuery { args with limit := some 0 }).limitCap = none ∧
    (buildQuery { args with limit := some n }).limitCap = some n ∧
    ((buildQuery args).limitCap ≠ none ↔ ∃ m, args.limit = some m ∧ m ≠ 0) := by
  refine ⟨rfl, rfl, ?_, ?_⟩
  · have hn0 : n ≠ 0 := by omega
    simp [buildQuery, hn0]
  · cases hl : args.limit with
    | none => simp [buildQuery, hl]
    | some m =>
        by_cases hm : m = 0 <;> simp [buildQuery, hl, hm]

/-- Witness for the C6 theorem at limit 5. -/
theorem buildQuery_limit_w :
    (buildQuery { table := "t", columns := none, filter := none, limit := none }).limitCap = none ∧
    (buildQuery { table := "t", columns := none, filter := none, limit := some 0 }).limitCap = none ∧
    (buildQuery { table := "t", columns := none, filter := none, limit := some 5 }).limitCap = some 5 ∧
    ((buildQuery { table := "t", columns := none, filter := none, limit := some 5 }).limitCap ≠ none
      ↔ ∃ m, ({ table := "t", columns := none, filter := none, limit := some 5 } : QueryInput).limit = some m ∧ m ≠ 0) := by
  have h := buildQuery_limit
    { table := "t", columns := none, filter := none, limit := some 5 } 5
    (by decide)
  exact ⟨h.1, h.2.1, h.2.2.1, h.2.2.2⟩

/-- C10: a gateway success with null data follows the success path: the
embedded HTML is the no-results document, the text summary reports zero
rows, and the structured content has rowCount zero with null results. -/
theorem run_crud_sql_null_data (env : Env)
    (gateway : QueryReq → GatewayReply) (args : QueryInput)
    (hu : jsFalsy env.supabaseUrl = false) (hk : jsFalsy env.supabaseKey = false)
    (h : gateway (buildQuery args) = GatewayReply.result none none) :
    (run_crud_sql env gateway args).isError = false ∧
    ContentItem.text ("Query returned 0 rows from table \x27" ++ args.table ++ "\x27.")
      ∈ (run_crud_sql env gateway args).content ∧
    ContentItem.resource ("ui://supabase/" ++ args.table ++ "/select") noResultsHtml
      ∈ (run_crud_sql env gateway args).content ∧
    (run_crud_sql env gateway args).structuredContent = some
      { results := none
        rowCount := 0
        tableName := args.table
        columns := jsStringOrStar args.columns
        filter := args.filter } := by
  have hs : successSummary args.table none
      = "Query returned 0 rows from table \x27" ++ args.table ++ "\x27." := by
    unfold successSummary
    congr 1
  refine ⟨?_, ?_, ?_, ?_⟩
  · simp [run_crud_sql, hu, hk, h]
  · rw [← hs]
    simp [run_crud_sql, hu, hk, h]
  · have hft : formatResultsAsTable none = noResultsHtml := rfl
    rw [← hft]
    simp [run_crud_sql, hu, hk, h]
  · simp [run_crud_sql, hu, hk, h, jsLen]

/-- Witness for the C10 theorem at a concrete table. -/
theorem run_crud_sql_null_data_w :
    (run_crud_sql { supabaseUrl := some "u", supabaseKey := some "k" }
      (fun _ => GatewayReply.result none none)
      { table := "jedi", columns := none, filter := none, limit := none }).isError
      = false ∧
    ContentItem.text ("Query returned 0 rows from table \x27" ++ "jedi" ++ "\x27.")
      ∈ (run_crud_sql { supabaseUrl := some "u", supabaseKey := some "k" }
        (fun _ => GatewayReply.result none none)
        { table := "jedi", columns := none, filter := none, limit := none }).content ∧
    ContentItem.resource ("ui://supabase/" ++ "jedi" ++ "/select") noResultsHtml
      ∈ (run_crud_sql { supabaseUrl := some "u", supabaseKey := some "k" }
        (fun _ => GatewayReply.result none none)
        { table := "jedi", columns := none, filter := none, limit := none }).content ∧
    (run_crud_sql { supabaseUrl := some "u", supabaseKey := some "k" }
      (fun _ => GatewayReply.result none none)
      { table := "jedi", columns := none, filter := none, limit := none
        }).structuredContent = some
      { results := none
        rowCount := 0
        tableName := "jedi"
        columns := jsStringOrStar none
        filter := none } :=
  run_crud_sql_null_data _ _ _ rfl rfl rfl
